import Mathlib

/-!
Shallow embedding of the `derivable-object-pool` crate (src/src/lib.rs).

The crate's state is, per type `T`, a `Pool<T>` holding a `Mutex<Vec<T>>` of
spare instances and a generator `fn() -> T`.  We model the `Vec<T>` as a
`List T` (push appends at the end, pop removes the last element), the
`Mutex` as its contents together with its poison flag, and a Rust panic of
the calling thread (from `unwrap()` on a poisoned lock result) as the
`crashed` outcome.  Mutating operations are modelled by explicit state
passing: they return the updated `Pool`.
-/

/-- Outcome of a pool operation on the calling thread: `crashed` models a
Rust panic (raised by `unwrap()` on a poisoned lock), `ok` a normal return. -/
inductive Outcome (A : Type) where
  | crashed
  | ok (val : A)
  deriving DecidableEq

/-- `Vec::push`: appends the element at the end of the vector. -/
def Vec.push {T : Type} (v : List T) (x : T) : List T := v ++ [x]

/-- `Vec::pop`: removes and returns the last element, `none` when empty. -/
def Vec.pop {T : Type} (v : List T) : Option T × List T := (v.getLast?, v.dropLast)

/-- Model of `std::sync::Mutex`: the protected contents plus the poison flag. -/
structure Mutex (A : Type) where
  data : A
  poisoned : Bool

/-- `Mutex::lock`: yields the contents, or `Err(PoisonError)` when poisoned. -/
def Mutex.lock {A : Type} (m : Mutex A) : Except Unit A :=
  if m.poisoned then .error () else .ok m.data

/-- `Result::unwrap` on a lock result: panics on `Err(PoisonError)`. -/
def unwrapLock {A : Type} : Except Unit A → Outcome A
  | .error _ => .crashed
  | .ok a => .ok a

/-- `Pool<T>` (src/src/lib.rs lines 191-197): the lock-protected vector of
spares and the generator function. -/
structure Pool (T : Type) where
  pool : Mutex (List T)
  generator : Unit → T

/-- `Pool::new`: a new empty pool bound to `generator` (lines 204-209). -/
def Pool.new {T : Type} (generator : Unit → T) : Pool T :=
  { pool := { data := [], poisoned := false }, generator := generator }

/-- `Pool::get_pool`: `self.pool.lock().unwrap()` (lines 215-217). -/
def Pool.get_pool {T : Type} (p : Pool T) : Outcome (List T) :=
  unwrapLock p.pool.lock

/-- `Pool::len` (lines 221-223). -/
def Pool.len {T : Type} (p : Pool T) : Outcome Nat :=
  match p.get_pool with
  | .crashed => .crashed
  | .ok v => .ok v.length

/-- `Pool::is_empty` (lines 227-229). -/
def Pool.is_empty {T : Type} (p : Pool T) : Outcome Bool :=
  match p.get_pool with
  | .crashed => .crashed
  | .ok v => .ok v.isEmpty

/-- `Pool::insert`: pushes the item onto the guarded vector (lines 233-235). -/
def Pool.insert {T : Type} (p : Pool T) (item : T) : Outcome (Pool T) :=
  match p.get_pool with
  | .crashed => .crashed
  | .ok v => .ok { p with pool := { p.pool with data := Vec.push v item } }

/-- `Pool::clear`: removes all objects from the pool (lines 239-241). -/
def Pool.clear {T : Type} (p : Pool T) : Outcome (Pool T) :=
  match p.get_pool with
  | .crashed => .crashed
  | .ok _ => .ok { p with pool := { p.pool with data := [] } }

/-- `Pool::remove`: pops from the guarded vector (lines 246-248). -/
def Pool.remove {T : Type} (p : Pool T) : Outcome (Option T × Pool T) :=
  match p.get_pool with
  | .crashed => .crashed
  | .ok v => .ok ((Vec.pop v).1, { p with pool := { p.pool with data := (Vec.pop v).2 } })

/-- `Reusable<T>` (lines 292-297): the wrapped object.  The `ManuallyDrop`
wrapper is the identity on values; its only role, suppressing the automatic
drop, is modelled in `Reusable.into_inner` and `scopeEnd` below. -/
structure Reusable (T : Type) where
  item : T
  deriving DecidableEq

/-- `Reusable::new` (lines 302-306). -/
def Reusable.new {T : Type} (item : T) : Reusable T := { item := item }

/-- `Reusable::into_inner` (lines 311-315): takes the item out of the wrapper
and calls `forget(self)`, so the handle's `Drop` impl can never run.  The
second component is the state of the handle slot afterwards: `none` models the
forgotten (consumed) handle. -/
def Reusable.into_inner {T : Type} (r : Reusable T) : T × Option (Reusable T) :=
  (r.item, none)

/-- `Drop for Reusable` (lines 362-368): takes the wrapped item and inserts
it into the type's pool. -/
def Reusable.drop {T : Type} (r : Reusable T) (p : Pool T) : Outcome (Pool T) :=
  p.insert r.item

/-- `From<T> for Reusable<T>` (lines 370-375): `Self::new(item)`. -/
def Reusable.fromItem {T : Type} (item : T) : Reusable T :=
  Reusable.new item

/-- End of a handle binding's scope: a handle still live runs its `Drop` impl
(one insert); a handle consumed by `forget` in `into_inner` does nothing. -/
def scopeEnd {T : Type} (slot : Option (Reusable T)) (p : Pool T) : Outcome (Pool T) :=
  match slot with
  | some r => r.drop p
  | none => .ok p

/-- `ObjectPool::new` (acquire, lines 152-158): lock the pool, pop; on
`Some` wrap the popped item, on `None` call the generator and wrap its
result.  The third component instruments the number of generator calls. -/
def ObjectPool.new {T : Type} (p : Pool T) : Outcome (Reusable T × Pool T × Nat) :=
  match p.get_pool with
  | .crashed => .crashed
  | .ok v =>
    match Vec.pop v with
    | (some item, v2) =>
      .ok (Reusable.new item, { p with pool := { p.pool with data := v2 } }, 0)
    | (none, v2) =>
      .ok (Reusable.new (p.generator ()), { p with pool := { p.pool with data := v2 } }, 1)

/-- `Pool::remove_reusable` (lines 255-257): `self.remove().map(Reusable::new)`.
The third component instruments generator calls: the source body never
references the generator, so it is literally `0`. -/
def Pool.remove_reusable {T : Type} (p : Pool T) : Outcome (Option (Reusable T) × Pool T × Nat) :=
  match p.remove with
  | .crashed => .crashed
  | .ok (r, p2) => .ok (r.map Reusable.new, p2, 0)

/-- Primitive events of `ObjectPool::new`, used for the lock-discipline claim. -/
inductive Event where
  | lock
  | pop
  | genCall
  | unlock
  deriving DecidableEq, BEq

/-- The event trace of `ObjectPool::new` as written in the source: the
`MutexGuard` is bound by the first statement (`let mut pool = ...get_pool()`),
`pool.pop()` runs on the guarded vector, in the `None` arm the generator is
called inside the match expression, and the guard is dropped — releasing the
lock — only at the end of the function body. -/
def newEventTrace (poolWasEmpty : Bool) : List Event :=
  if poolWasEmpty then [.lock, .pop, .genCall, .unlock]
  else [.lock, .pop, .unlock]

/-- A concrete pool over `Nat` whose generator returns `0` (the spec's
`Widget` scenario). -/
def widgetPool : Pool Nat := Pool.new fun _ => 0

/-- C1: a handle whose scope ends normally (still live, not consumed by
`into_inner`) performs exactly the single insert of its `Drop` impl: the
wrapped item is pushed onto the type's pool and the pool count increases by
exactly 1. -/
theorem c1_drop_returns_exactly_once {T : Type} (p : Pool T) (r : Reusable T)
    (h : p.pool.poisoned = false) :
    scopeEnd (some r) p =
      .ok { p with pool := { p.pool with data := Vec.push p.pool.data r.item } } ∧
    (Vec.push p.pool.data r.item).length = p.pool.data.length + 1 := by
  constructor
  · simp [scopeEnd, Reusable.drop, Pool.insert, Pool.get_pool, Mutex.lock, unwrapLock, h]
  · simp [Vec.push]

/-- Witness for C1 at a concrete input. -/
theorem c1_drop_returns_exactly_once_witness :
    widgetPool.pool.poisoned = false ∧
    (scopeEnd (some (Reusable.new 5)) widgetPool =
       .ok { widgetPool with pool := { widgetPool.pool with data := Vec.push widgetPool.pool.data 5 } } ∧
     (Vec.push widgetPool.pool.data 5).length = widgetPool.pool.data.length + 1) :=
  ⟨rfl, c1_drop_returns_exactly_once widgetPool (Reusable.new 5) rfl⟩

/-- C2: `ObjectPool::new` (acquire) never fails when the lock is healthy: it
always returns `ok`; when the pool holds a pushed element it pops and wraps
exactly that top element without calling the generator; when the pool is
empty it calls the generator exactly once and wraps the generator's result. -/
theorem c2_new_total {T : Type} (p : Pool T) (h : p.pool.poisoned = false) :
    (∃ res, ObjectPool.new p = .ok res) ∧
    (∀ s x, p.pool.data = Vec.push s x →
      ObjectPool.new p = .ok (Reusable.new x, { p with pool := { p.pool with data := s } }, 0)) ∧
    (p.pool.data = [] →
      ObjectPool.new p = .ok (Reusable.new (p.generator ()), p, 1)) := by
  refine ⟨?_, ?_, ?_⟩
  · match hv : Vec.pop p.pool.data with
    | (some item, v2) =>
      refine ⟨(Reusable.new item, { p with pool := { p.pool with data := v2 } }, 0), ?_⟩
      simp [ObjectPool.new, Pool.get_pool, Mutex.lock, unwrapLock, h, hv]
    | (none, v2) =>
      refine ⟨(Reusable.new (p.generator ()), { p with pool := { p.pool with data := v2 } }, 1), ?_⟩
      simp [ObjectPool.new, Pool.get_pool, Mutex.lock, unwrapLock, h, hv]
  · intro s x hp
    simp [ObjectPool.new, Pool.get_pool, Mutex.lock, unwrapLock, h, hp, Vec.pop, Vec.push]
  · intro he
    simp [ObjectPool.new, Pool.get_pool, Mutex.lock, unwrapLock, h, he, Vec.pop]
    rw [← he, ← h]

/-- Witness for C2 at a concrete input. -/
theorem c2_new_total_witness :
    widgetPool.pool.poisoned = false ∧
    ((∃ res, ObjectPool.new widgetPool = .ok res) ∧
     (∀ s x, widgetPool.pool.data = Vec.push s x →
       ObjectPool.new widgetPool = .ok (Reusable.new x, { widgetPool with pool := { widgetPool.pool with data := s } }, 0)) ∧
     (widgetPool.pool.data = [] →
       ObjectPool.new widgetPool = .ok (Reusable.new (widgetPool.generator ()), widgetPool, 1))) :=
  ⟨rfl, c2_new_total widgetPool rfl⟩

/-- C3 as stated is false of the code: in the empty-pool branch of
`ObjectPool::new` the mutex is NOT released before the generator call.  The
`MutexGuard` bound at the top of the function is dropped only at the end of
the function body, so in the trace the unlock strictly follows `genCall`. -/
theorem c3_counterexample :
    ¬ ((newEventTrace true).indexOf Event.unlock
        < (newEventTrace true).indexOf Event.genCall) := by
  decide

/-- C3 amended: during acquire the lock is taken exactly once, before the
pop; in the empty-pool branch the generator executes while the lock is still
held, and the lock is released only after the generator call, when the guard
goes out of scope at the end of acquire. -/
theorem c3_amended_lock_held_across_generator :
    (newEventTrace true).indexOf Event.lock < (newEventTrace true).indexOf Event.genCall ∧
    (newEventTrace true).indexOf Event.genCall < (newEventTrace true).indexOf Event.unlock ∧
    (newEventTrace true).count Event.lock = 1 ∧
    (newEventTrace true).count Event.unlock = 1 := by
  decide

/-- C4: `into_inner` yields raw ownership of exactly the wrapped item and
disarms the automatic return (`forget(self)` empties the handle slot): the
subsequent end of scope inserts nothing, leaving the pool exactly as it was
right before the extraction. -/
theorem c4_into_inner_suppresses_return {T : Type} (r : Reusable T) (p : Pool T) :
    (r.into_inner).1 = r.item ∧ scopeEnd (r.into_inner).2 p = .ok p :=
  ⟨rfl, rfl⟩

/-- C5: round-trip reuse: returning a handle and immediately acquiring again
yields a handle wrapping the very item the previous handle held (so any
mutation made through the previous handle persists), restores the pool to its
contents before the return, and decreases the count by 1 relative to the
post-return pool; the generator is not called. -/
theorem c5_round_trip_reuse {T : Type} (p : Pool T) (r : Reusable T)
    (h : p.pool.poisoned = false) :
    ∃ p2,
      scopeEnd (some r) p = .ok p2 ∧
      ObjectPool.new p2 = .ok (Reusable.new r.item, p, 0) ∧
      p2.pool.data.length = p.pool.data.length + 1 := by
  refine ⟨{ p with pool := { p.pool with data := Vec.push p.pool.data r.item } }, ?_, ?_, ?_⟩
  · simp [scopeEnd, Reusable.drop, Pool.insert, Pool.get_pool, Mutex.lock, unwrapLock, h]
  · simp [ObjectPool.new, Pool.get_pool, Mutex.lock, unwrapLock, h, Vec.pop, Vec.push]
    rw [← h]
  · simp [Vec.push]

/-- Witness for C5: the spec's Widget scenario — a handle mutated to 5 is
returned and immediately reacquired, with payload 5 and counts 1 then 0. -/
theorem c5_round_trip_reuse_witness :
    widgetPool.pool.poisoned = false ∧
    (∃ p2,
      scopeEnd (some (Reusable.new 5)) widgetPool = .ok p2 ∧
      ObjectPool.new p2 = .ok (Reusable.new 5, widgetPool, 0) ∧
      p2.pool.data.length = widgetPool.pool.data.length + 1) :=
  ⟨rfl, c5_round_trip_reuse widgetPool (Reusable.new 5) rfl⟩

/-- C6: the pool is a LIFO stack: `insert` unconditionally pushes the item at
the logical top (it always succeeds, at any size), and `remove` pops exactly
the most-recently-inserted element — removing after a push returns the pushed
element and restores the previous pool — while `remove` on an empty pool
returns `none` and leaves the pool unchanged. -/
theorem c6_lifo_stack {T : Type} (p : Pool T) (x : T)
    (h : p.pool.poisoned = false) :
    p.insert x = .ok { p with pool := { p.pool with data := Vec.push p.pool.data x } } ∧
    (Vec.push p.pool.data x).length = p.pool.data.length + 1 ∧
    Pool.remove { p with pool := { p.pool with data := Vec.push p.pool.data x } } = .ok (some x, p) ∧
    (p.pool.data = [] → p.remove = .ok (none, p)) := by
  refine ⟨?_, ?_, ?_, ?_⟩
  · simp [Pool.insert, Pool.get_pool, Mutex.lock, unwrapLock, h]
  · simp [Vec.push]
  · simp [Pool.remove, Pool.get_pool, Mutex.lock, unwrapLock, h, Vec.pop, Vec.push]
    rw [← h]
  · intro he
    simp [Pool.remove, Pool.get_pool, Mutex.lock, unwrapLock, h, Vec.pop, he]
    rw [← he, ← h]

/-- Witness for C6 at a concrete input. -/
theorem c6_lifo_stack_witness :
    widgetPool.pool.poisoned = false ∧
    (widgetPool.insert 7 = .ok { widgetPool with pool := { widgetPool.pool with data := Vec.push widgetPool.pool.data 7 } } ∧
     (Vec.push widgetPool.pool.data 7).length = widgetPool.pool.data.length + 1 ∧
     Pool.remove { widgetPool with pool := { widgetPool.pool with data := Vec.push widgetPool.pool.data 7 } } = .ok (some 7, widgetPool) ∧
     (widgetPool.pool.data = [] → widgetPool.remove = .ok (none, widgetPool))) :=
  ⟨rfl, c6_lifo_stack widgetPool 7 rfl⟩

/-- A concrete pool over `Nat` whose mutex is poisoned. -/
def poisonedPool : Pool Nat :=
  { pool := { data := [], poisoned := true }, generator := fun _ => 0 }

/-- C7: every pool operation goes through `get_pool`, i.e.
`self.pool.lock().unwrap()`; when the lock is poisoned the `unwrap` panics in
the calling thread, so each operation crashes instead of touching the
collection. -/
theorem c7_poisoned_lock_crashes {T : Type} (p : Pool T) (x : T)
    (h : p.pool.poisoned = true) :
    p.get_pool = .crashed ∧ p.len = .crashed ∧ p.is_empty = .crashed ∧
    p.insert x = .crashed ∧ p.clear = .crashed ∧ p.remove = .crashed ∧
    p.remove_reusable = .crashed ∧ ObjectPool.new p = .crashed := by
  have hg : p.get_pool = .crashed := by
    simp [Pool.get_pool, Mutex.lock, unwrapLock, h]
  refine ⟨hg, ?_, ?_, ?_, ?_, ?_, ?_, ?_⟩ <;>
    simp [Pool.len, Pool.is_empty, Pool.insert, Pool.clear, Pool.remove,
      Pool.remove_reusable, ObjectPool.new, hg]

/-- Witness for C7 at a concrete poisoned pool. -/
theorem c7_poisoned_lock_crashes_witness :
    poisonedPool.pool.poisoned = true ∧
    (poisonedPool.get_pool = .crashed ∧ poisonedPool.len = .crashed ∧
     poisonedPool.is_empty = .crashed ∧ poisonedPool.insert 3 = .crashed ∧
     poisonedPool.clear = .crashed ∧ poisonedPool.remove = .crashed ∧
     poisonedPool.remove_reusable = .crashed ∧ ObjectPool.new poisonedPool = .crashed) :=
  ⟨rfl, c7_poisoned_lock_crashes poisonedPool 3 rfl⟩

/-- C8: `clear` empties the collection, so the count is 0 immediately
afterwards; it takes no handle as input, so an outstanding handle's payload is
untouched, and such a handle still returns normally afterwards: its later
scope end inserts exactly its item, making the count 1. -/
theorem c8_clear_keeps_handles {T : Type} (p : Pool T) (r : Reusable T)
    (h : p.pool.poisoned = false) :
    p.clear = .ok { p with pool := { p.pool with data := [] } } ∧
    Pool.len { p with pool := { p.pool with data := ([] : List T) } } = .ok 0 ∧
    scopeEnd (some r) { p with pool := { p.pool with data := [] } } =
      .ok { p with pool := { p.pool with data := [r.item] } } ∧
    Pool.len { p with pool := { p.pool with data := [r.item] } } = .ok 1 := by
  refine ⟨?_, ?_, ?_, ?_⟩
  · simp [Pool.clear, Pool.get_pool, Mutex.lock, unwrapLock, h]
  · simp [Pool.len, Pool.get_pool, Mutex.lock, unwrapLock, h]
  · simp [scopeEnd, Reusable.drop, Pool.insert, Pool.get_pool, Mutex.lock, unwrapLock, h,
      Vec.push]
  · simp [Pool.len, Pool.get_pool, Mutex.lock, unwrapLock, h]

/-- Witness for C8 at a concrete input. -/
theorem c8_clear_keeps_handles_witness :
    widgetPool.pool.poisoned = false ∧
    (widgetPool.clear = .ok { widgetPool with pool := { widgetPool.pool with data := [] } } ∧
     Pool.len { widgetPool with pool := { widgetPool.pool with data := ([] : List Nat) } } = .ok 0 ∧
     scopeEnd (some (Reusable.new 9)) { widgetPool with pool := { widgetPool.pool with data := [] } } =
       .ok { widgetPool with pool := { widgetPool.pool with data := [9] } } ∧
     Pool.len { widgetPool with pool := { widgetPool.pool with data := [9] } } = .ok 1) :=
  ⟨rfl, c8_clear_keeps_handles widgetPool (Reusable.new 9) rfl⟩

/-- C9: any value of `T` — acquired from the pool or not — is adopted into
the pool lifecycle by `From<T> for Reusable<T>`, which is exactly
`Reusable::new`; when the resulting handle's scope ends, that value is
inserted into the type's pool, increasing the count by 1 (so the count can
exceed the number of instances ever taken out of the pool). -/
theorem c9_from_adopts_any_value {T : Type} (x : T) (p : Pool T)
    (h : p.pool.poisoned = false) :
    Reusable.fromItem x = Reusable.new x ∧
    scopeEnd (some (Reusable.fromItem x)) p =
      .ok { p with pool := { p.pool with data := Vec.push p.pool.data x } } ∧
    (Vec.push p.pool.data x).length = p.pool.data.length + 1 := by
  refine ⟨rfl, ?_, ?_⟩
  · simp [scopeEnd, Reusable.drop, Reusable.fromItem, Reusable.new, Pool.insert,
      Pool.get_pool, Mutex.lock, unwrapLock, h]
  · simp [Vec.push]

/-- Witness for C9: a value never acquired from the (empty, never-popped)
pool is adopted and its drop makes the count 1. -/
theorem c9_from_adopts_any_value_witness :
    widgetPool.pool.poisoned = false ∧
    (Reusable.fromItem 42 = Reusable.new 42 ∧
     scopeEnd (some (Reusable.fromItem 42)) widgetPool =
       .ok { widgetPool with pool := { widgetPool.pool with data := Vec.push widgetPool.pool.data 42 } } ∧
     (Vec.push widgetPool.pool.data 42).length = widgetPool.pool.data.length + 1) :=
  ⟨rfl, c9_from_adopts_any_value 42 widgetPool rfl⟩

/-- C10: `remove_reusable` is `remove().map(Reusable::new)`: on an empty pool
it returns `none` with the pool unchanged, and its generator-call count is
literally 0 — unlike `ObjectPool::new`, it has no construction fallback; on a
pool ending in a pushed element it returns a handle wrapping exactly that top
element. -/
theorem c10_remove_reusable_no_fallback {T : Type} (p : Pool T)
    (h : p.pool.poisoned = false) :
    (p.pool.data = [] → p.remove_reusable = .ok (none, p, 0)) ∧
    (∀ s x, p.pool.data = Vec.push s x →
      p.remove_reusable =
        .ok (some (Reusable.new x), { p with pool := { p.pool with data := s } }, 0)) := by
  constructor
  · intro he
    simp [Pool.remove_reusable, Pool.remove, Pool.get_pool, Mutex.lock, unwrapLock, h,
      Vec.pop, he]
    rw [← he, ← h]
  · intro s x hp
    simp [Pool.remove_reusable, Pool.remove, Pool.get_pool, Mutex.lock, unwrapLock, h,
      hp, Vec.pop, Vec.push]

/-- Witness for C10 at a concrete input. -/
theorem c10_remove_reusable_no_fallback_witness :
    widgetPool.pool.poisoned = false ∧
    ((widgetPool.pool.data = [] → widgetPool.remove_reusable = .ok (none, widgetPool, 0)) ∧
     (∀ s x, widgetPool.pool.data = Vec.push s x →
       widgetPool.remove_reusable =
         .ok (some (Reusable.new x), { widgetPool with pool := { widgetPool.pool with data := s } }, 0))) :=
  ⟨rfl, c10_remove_reusable_no_fallback widgetPool rfl⟩
